import Mathlib

/-!
Verification development for the brute-force protection middleware
`bank-payment-api-mern/middleware/brute.js`.

The file under `src/` configures four `ExpressBrute` guards over a single
mongoose-backed store.  The guard orchestration, the backoff policy and the
store implementation themselves live in the `express-brute` /
`express-brute-mongoose` libraries and are not part of the repository
sources; where a claim depends on them, the corresponding definitions below
are modelled from the specification (each such definition says so in its
doc comment).  Everything else is translated directly from `brute.js`.

Times are modelled as natural numbers of milliseconds since the epoch,
except where noted (the `lifetime` option of `express-brute` is in
seconds, exactly as in the source).
-/

/-- An attempt record as persisted by the store.  Mirrors the mongoose
document of `bruteForceSchema` in `brute.js`: the `data` subdocument holds
`count`, `lastRequest`, `firstRequest`, and the top-level `expires` field
(called `expiresAt` in the specification) carries the TTL timestamp. -/
structure StoredRecord where
  count : Nat
  firstRequest : Nat
  lastRequest : Nat
  expiresAt : Nat
deriving DecidableEq

/-- A tier configuration: the four numeric options passed to the
`ExpressBrute` constructor in `brute.js`.  `minWait` and `maxWait` are in
milliseconds, `lifetime` is in seconds (as in `express-brute`). -/
structure TierConfig where
  freeRetries : Nat
  minWait : Nat
  maxWait : Nat
  lifetime : Nat
deriving DecidableEq

/-- The mongoose model registered by `brute.js`. -/
structure MongooseModel where
  name : String
deriving DecidableEq

/-- A `MongooseStore` instance, identified by the model (collection) it
writes to. -/
structure MongooseStoreInst where
  model : MongooseModel
deriving DecidableEq

/-- Translation of `mongoose.model('BruteForce', bruteForceSchema)` from
`brute.js`. -/
def BruteForceModel : MongooseModel := { name := "BruteForce" }

/-- Translation of `const store = new MongooseStore(BruteForceModel)` from
`brute.js`: the single module-level store instance. -/
def store : MongooseStoreInst := { model := BruteForceModel }

/-- An `ExpressBrute` guard as constructed in `brute.js`: the store passed
to the constructor, the numeric tier options, and whether the options
object supplies a custom `handleStoreError`. -/
structure ExpressBruteGuard where
  store : MongooseStoreInst
  config : TierConfig
  hasHandleStoreError : Bool
deriving DecidableEq

/-- Translation of the `loginBruteForce` construction in `brute.js`:
`freeRetries: 5, minWait: 5*60*1000, maxWait: 60*60*1000,
lifetime: 24*60*60`, with a custom `handleStoreError`. -/
def loginBruteForce : ExpressBruteGuard :=
  { store := store
    config :=
      { freeRetries := 5
        minWait := 5 * 60 * 1000
        maxWait := 60 * 60 * 1000
        lifetime := 24 * 60 * 60 }
    hasHandleStoreError := true }

/-- Translation of the `globalBruteForce` construction in `brute.js`:
`freeRetries: 100, minWait: 1*60*1000, maxWait: 15*60*1000,
lifetime: 60*60`, with no custom `handleStoreError`. -/
def globalBruteForce : ExpressBruteGuard :=
  { store := store
    config :=
      { freeRetries := 100
        minWait := 1 * 60 * 1000
        maxWait := 15 * 60 * 1000
        lifetime := 60 * 60 }
    hasHandleStoreError := false }

/-- Translation of the `registrationBruteForce` construction in `brute.js`:
`freeRetries: 3, minWait: 10*60*1000, maxWait: 2*60*60*1000,
lifetime: 24*60*60`, with no custom `handleStoreError`. -/
def registrationBruteForce : ExpressBruteGuard :=
  { store := store
    config :=
      { freeRetries := 3
        minWait := 10 * 60 * 1000
        maxWait := 2 * 60 * 60 * 1000
        lifetime := 24 * 60 * 60 }
    hasHandleStoreError := false }

/-- Translation of the `paymentBruteForce` construction in `brute.js`:
`freeRetries: 10, minWait: 5*60*1000, maxWait: 30*60*1000,
lifetime: 60*60`, with no custom `handleStoreError`. -/
def paymentBruteForce : ExpressBruteGuard :=
  { store := store
    config :=
      { freeRetries := 10
        minWait := 5 * 60 * 1000
        maxWait := 30 * 60 * 1000
        lifetime := 60 * 60 }
    hasHandleStoreError := false }

/-- Duration helper used to phrase the reference configuration of the
specification: `n` minutes in milliseconds. -/
def minutesMs (n : Nat) : Nat := n * 60 * 1000

/-- Duration helper: `n` hours in milliseconds. -/
def hoursMs (n : Nat) : Nat := n * 60 * 60 * 1000

/-- Duration helper: `n` hours in seconds. -/
def hoursSeconds (n : Nat) : Nat := n * 60 * 60

/-- A decision of the backoff policy: allow the attempt, or block it until
the given next-valid timestamp. -/
inductive Decision where
  | allow : Decision
  | block : Nat → Decision
deriving DecidableEq

/-- Modelled from the spec: the wait computed by the backoff policy of
`express-brute` (the library is not part of the repository sources).  Per
the specification, `wait = min(maxWait, minWait * 2^(overage - 1))`,
exponential growth capped at `maxWait`. -/
def waitFor (tier : TierConfig) (overage : Nat) : Nat :=
  min tier.maxWait (tier.minWait * 2 ^ (overage - 1))

/-- Modelled from the spec: `BackoffPolicy.decide(record, tier, now)` of
the `express-brute` library, absent from the repository sources.  Per the
specification: Allow when the record is absent or `count ≤ freeRetries`;
otherwise with `overage = count - freeRetries` and
`nextValidAt = lastRequest + wait`, Allow when `now ≥ nextValidAt` (count
is not reset) and Block(nextValidAt) otherwise. -/
def BackoffPolicy.decide (record : Option StoredRecord) (tier : TierConfig)
    (now : Nat) : Decision :=
  match record with
  | none => Decision.allow
  | some r =>
    if r.count ≤ tier.freeRetries then Decision.allow
    else
      let overage := r.count - tier.freeRetries
      let nextValidAt := r.lastRequest + waitFor tier overage
      if nextValidAt ≤ now then Decision.allow else Decision.block nextValidAt

/-- Modelled from the spec: the store lookup of `AttemptStore.get` (the
`express-brute-mongoose` implementation is not part of the repository
sources).  A record with `expiresAt ≤ now` must never influence a
decision: it is treated as absent. -/
def Store.getRecord (db : Option StoredRecord) (now : Nat) :
    Option StoredRecord :=
  match db with
  | none => none
  | some r => if r.expiresAt ≤ now then none else some r

/-- Modelled from the spec: `AttemptStore.incrementAndGet(key, now,
lifetime)` (the store implementation is not part of the repository
sources).  Atomically creates the record if absent or expired
(`count = 1`, `firstRequest = lastRequest = now`,
`expiresAt = now + lifetime`), otherwise increments `count` and sets
`lastRequest = now`.  The `lifetime` argument is in seconds, matching the
`express-brute` option. -/
def Store.incrementAndGet (db : Option StoredRecord) (now : Nat)
    (lifetimeSeconds : Nat) : StoredRecord :=
  match Store.getRecord db now with
  | none =>
    { count := 1, firstRequest := now, lastRequest := now
      expiresAt := now + lifetimeSeconds * 1000 }
  | some r => { r with count := r.count + 1, lastRequest := now }

/-- The TTL grace of the schema in `brute.js`: the index declaration
`expires: { type: Date, index: { expires: '1d' } }` makes MongoDB remove a
document one day after the value of its `expires` field. -/
def ttlGraceMs : Nat := 24 * 60 * 60 * 1000

/-- Physical TTL purge as configured by `bruteForceSchema` in `brute.js`:
the document is removed once one day has passed after its `expires`
(`expiresAt`) timestamp. -/
def Store.ttlPurge (db : Option StoredRecord) (now : Nat) :
    Option StoredRecord :=
  match db with
  | none => none
  | some r => if r.expiresAt + ttlGraceMs ≤ now then none else some r

/-- Health of the store backend, used to model store outages. -/
inductive StoreHealth where
  | up : StoreHealth
  | down : StoreHealth
deriving DecidableEq

/-- The observable outcome of a guard operation: the decision it reaches,
whether it threw, and whether it surfaced a store error for
observability. -/
structure GuardOutcome where
  decision : Decision
  threw : Bool
  loggedStoreError : Bool
deriving DecidableEq

/-- Modelled from the spec: `Guard.check(key, tier)` of the
`express-brute` library (absent from the repository sources): it reads
the current record via `Store.get` and evaluates `BackoffPolicy.decide`;
on a store error the default fail-open policy treats the error as Allow,
does not throw, and surfaces the error for observability. -/
def Guard.check (h : StoreHealth) (db : Option StoredRecord)
    (tier : TierConfig) (now : Nat) : GuardOutcome :=
  match h with
  | StoreHealth.up =>
    { decision := BackoffPolicy.decide (Store.getRecord db now) tier now
      threw := false
      loggedStoreError := false }
  | StoreHealth.down =>
    { decision := Decision.allow, threw := false, loggedStoreError := true }

/-- Modelled from the spec: `Guard.recordFailure(key, tier)` of the
`express-brute` library (absent from the repository sources): it calls
`Store.incrementAndGet(key, now, tier.lifetime)`; on a store error the
default fail-open policy leaves the state unchanged, does not throw, and
surfaces the error, behaving as Allow. -/
def Guard.recordFailure (h : StoreHealth) (db : Option StoredRecord)
    (tier : TierConfig) (now : Nat) :
    Option StoredRecord × GuardOutcome :=
  match h with
  | StoreHealth.up =>
    (some (Store.incrementAndGet db now tier.lifetime),
     { decision := Decision.allow, threw := false, loggedStoreError := false })
  | StoreHealth.down =>
    (db, { decision := Decision.allow, threw := false, loggedStoreError := true })

/-- Modelled from the spec: `check` with its (absent) state effect made
explicit.  Per the specification `check` reads the record and never
mutates state, so the state component is returned unchanged. -/
def Guard.checkWithState (db : Option StoredRecord) (tier : TierConfig)
    (now : Nat) : Option StoredRecord × GuardOutcome :=
  (db, Guard.check StoreHealth.up db tier now)

/-- Ceiling division of an integer by a positive integer, as produced by
`Math.ceil(x / d)` in JavaScript for integer `x` and positive integer
`d`. -/
def jsCeilDiv (x : Int) (d : Int) : Int := Int.fdiv (x + d - 1) d

/-- A JSON response as produced by a guard's `failCallback` in `brute.js`,
together with whether the callback invoked `next()`.  A field whose value
is `none` is absent from the JSON body. -/
structure JsonResponse where
  status : Nat
  success : Bool
  message : String
  nextValidRequestDate : Option Int
  blocked : Option Bool
  retryAfterSeconds : Option Int
  calledNext : Bool
deriving DecidableEq

/-- Translation of the `failCallback` of `loginBruteForce` in `brute.js`:
`waitTime = Math.ceil((nextValidRequestDate - Date.now()) / 1000 / 60)`,
then `res.status(429).json({ success: false, message: ..., 
nextValidRequestDate })`; `next` is never called. -/
def loginFailCallback (now nextValidRequestDate : Int) : JsonResponse :=
  let waitTime := jsCeilDiv (nextValidRequestDate - now) 60000
  { status := 429
    success := false
    message := "Too many failed login attempts. Please try again in "
      ++ toString waitTime ++ " minute(s)."
    nextValidRequestDate := some nextValidRequestDate
    blocked := none
    retryAfterSeconds := none
    calledNext := false }

/-- Translation of the `failCallback` of `globalBruteForce` in `brute.js`:
`res.status(429).json({ success: false, message: 'Too many requests from
this IP. Please slow down.' })`; the `nextValidRequestDate` parameter is
unused and `next` is never called. -/
def globalFailCallback (now nextValidRequestDate : Int) : JsonResponse :=
  { status := 429
    success := false
    message := "Too many requests from this IP. Please slow down."
    nextValidRequestDate := none
    blocked := none
    retryAfterSeconds := none
    calledNext := false }

/-- Translation of the `failCallback` of `registrationBruteForce` in
`brute.js`: like the login callback it computes a ceiling-rounded wait in
minutes and embeds it in the message, but it does not echo
`nextValidRequestDate` in the body; `next` is never called. -/
def registrationFailCallback (now nextValidRequestDate : Int) :
    JsonResponse :=
  let waitTime := jsCeilDiv (nextValidRequestDate - now) 60000
  { status := 429
    success := false
    message := "Too many registration attempts. Please try again in "
      ++ toString waitTime ++ " minute(s)."
    nextValidRequestDate := none
    blocked := none
    retryAfterSeconds := none
    calledNext := false }

/-- Translation of the `failCallback` of `paymentBruteForce` in
`brute.js`: a fixed message, no wait time in the body; `next` is never
called. -/
def paymentFailCallback (now nextValidRequestDate : Int) : JsonResponse :=
  { status := 429
    success := false
    message := "Payment creation rate limit exceeded. Please wait before creating another payment."
    nextValidRequestDate := none
    blocked := none
    retryAfterSeconds := none
    calledNext := false }

/-- The environment variables inspected by `handleStoreError` in
`brute.js`: whether `process.env.NODE_ENV === 'test'` and whether
`process.env.CI` is truthy. -/
structure Env where
  nodeEnvTest : Bool
  ci : Bool
deriving DecidableEq

/-- The run of a store-error handler: whether it logged the error to the
console, whether it took the early-return branch, and whether it threw. -/
structure StoreErrorHandlerRun where
  loggedToConsole : Bool
  earlyReturn : Bool
  thrown : Bool
deriving DecidableEq

/-- Translation of `handleStoreError` of `loginBruteForce` in `brute.js`:
it logs the error with `console.error`, returns early when
`NODE_ENV === 'test'` or `CI` is set, and otherwise falls through to the
end of the function (the `throw error` line is commented out), so it never
throws in either branch. -/
def loginHandleStoreError (env : Env) : StoreErrorHandlerRun :=
  if env.nodeEnvTest || env.ci then
    { loggedToConsole := true, earlyReturn := true, thrown := false }
  else
    { loggedToConsole := true, earlyReturn := false, thrown := false }

/-- The externally observable behavior of a store-error handler run: what
it logged and whether it threw (the control path taken to return is not
observable to the caller). -/
def observableBehavior (r : StoreErrorHandlerRun) : Bool × Bool :=
  (r.loggedToConsole, r.thrown)

/-- Modelled from the spec: N parallel `recordFailure` invocations for one
key against the linearizable store.  Because `incrementAndGet` is atomic
per key, any concurrent execution of the N invocations is equivalent to
some sequential order of the N atomic increments; the invocations are
simultaneous, so every order applies `incrementAndGet` at the same
timestamp `now`.  Starting state is the absent record. -/
def runParallelFailures : Nat → Nat → Nat → Option StoredRecord
  | 0, _, _ => none
  | n + 1, now, lifetimeSeconds =>
    some (Store.incrementAndGet (runParallelFailures n now lifetimeSeconds)
      now lifetimeSeconds)

/-- A guard operation on one key, used to state frame properties of
sequences of calls. -/
inductive GuardOp where
  | checkOp : TierConfig → Nat → GuardOp
  | failOp : TierConfig → Nat → GuardOp
deriving DecidableEq

/-- Whether a guard operation is a `check`. -/
def GuardOp.isCheck : GuardOp → Bool
  | GuardOp.checkOp _ _ => true
  | GuardOp.failOp _ _ => false

/-- The state effect of one guard operation on the stored record. -/
def applyOp : GuardOp → Option StoredRecord → Option StoredRecord
  | GuardOp.checkOp tier now, db => (Guard.checkWithState db tier now).1
  | GuardOp.failOp tier now, db =>
    (Guard.recordFailure StoreHealth.up db tier now).1

/-- The state effect of a sequence of guard operations, applied left to
right. -/
def applyOps : List GuardOp → Option StoredRecord → Option StoredRecord
  | [], db => db
  | op :: rest, db => applyOps rest (applyOp op db)

/-- C3: The four named tiers (login, global, registration, payment) are
configured exactly as: freeRetries 5/100/3/10, minWait 5min/1min/10min/5min,
maxWait 1h/15min/2h/30min, lifetime 24h/1h/24h/1h respectively. -/
theorem tier_configs_match_reference :
    loginBruteForce.config =
      { freeRetries := 5, minWait := minutesMs 5, maxWait := hoursMs 1,
        lifetime := hoursSeconds 24 } ∧
    globalBruteForce.config =
      { freeRetries := 100, minWait := minutesMs 1, maxWait := minutesMs 15,
        lifetime := hoursSeconds 1 } ∧
    registrationBruteForce.config =
      { freeRetries := 3, minWait := minutesMs 10, maxWait := hoursMs 2,
        lifetime := hoursSeconds 24 } ∧
    paymentBruteForce.config =
      { freeRetries := 10, minWait := minutesMs 5, maxWait := minutesMs 30,
        lifetime := hoursSeconds 1 } := by
  refine ⟨?_, ?_, ?_, ?_⟩ <;> decide

/-- C8: All four exported guards (login, global, registration, payment) are
constructed over one and the same module-level store instance backed by a
single mongoose model, so their persisted attempt records live in one
shared collection rather than per-tier storage. -/
theorem guards_share_single_store :
    loginBruteForce.store = store ∧
    globalBruteForce.store = store ∧
    registrationBruteForce.store = store ∧
    paymentBruteForce.store = store ∧
    store.model = BruteForceModel ∧
    BruteForceModel.name = "BruteForce" :=
  ⟨rfl, rfl, rfl, rfl, rfl, rfl⟩

/-- C2: For every tier, when a store operation fails, both check and
recordFailure behave as Allow and do not throw: the store error is
recovered locally by the default fail-open policy (the decision is Allow,
nothing is thrown, the state is unchanged) while being surfaced for
observability (the outcome records the store error). -/
theorem store_error_fails_open (tier : TierConfig)
    (db : Option StoredRecord) (now : Nat) :
    Guard.check StoreHealth.down db tier now =
      { decision := Decision.allow, threw := false,
        loggedStoreError := true } ∧
    Guard.recordFailure StoreHealth.down db tier now =
      (db, { decision := Decision.allow, threw := false,
             loggedStoreError := true }) :=
  ⟨rfl, rfl⟩

/-- C9: For every store error, loginBruteForce's handleStoreError returns
normally (never throws), and its observable behavior (what it logs and
whether it throws) is identical in any two runs that differ only in the
NODE_ENV and CI environment variables: both the test/CI early-return
branch and the fall-through branch swallow the error. -/
theorem handleStoreError_env_invariant (e₁ e₂ : Env) :
    (loginHandleStoreError e₁).thrown = false ∧
    (loginHandleStoreError e₁).loggedToConsole = true ∧
    observableBehavior (loginHandleStoreError e₁) =
      observableBehavior (loginHandleStoreError e₂) := by
  obtain ⟨a, b⟩ := e₁
  obtain ⟨c, d⟩ := e₂
  cases a <;> cases b <;> cases c <;> cases d <;> exact ⟨rfl, rfl, rfl⟩

/-- C10: For every tier, the failCallback invoked on a blocked request
always responds with HTTP status 429 and a JSON body whose success field
is false, and it never calls next(), so a blocked request never reaches
the protected handler. -/
theorem failCallbacks_block_without_next (now nv : Int) :
    (loginFailCallback now nv).status = 429 ∧
    (loginFailCallback now nv).success = false ∧
    (loginFailCallback now nv).calledNext = false ∧
    (globalFailCallback now nv).status = 429 ∧
    (globalFailCallback now nv).success = false ∧
    (globalFailCallback now nv).calledNext = false ∧
    (registrationFailCallback now nv).status = 429 ∧
    (registrationFailCallback now nv).success = false ∧
    (registrationFailCallback now nv).calledNext = false ∧
    (paymentFailCallback now nv).status = 429 ∧
    (paymentFailCallback now nv).success = false ∧
    (paymentFailCallback now nv).calledNext = false :=
  ⟨rfl, rfl, rfl, rfl, rfl, rfl, rfl, rfl, rfl, rfl, rfl, rfl⟩

/-- C1: For every key, tier and time: the backoff decision is Allow when
the record is absent or record.count <= tier.freeRetries; otherwise, with
overage = record.count - freeRetries, the wait is
min(maxWait, minWait * 2^(overage - 1)), which is monotonically
non-decreasing in overage, and the decision is Allow when
now >= record.lastRequest + wait (the record, hence the count, is not
changed by deciding) and Block(record.lastRequest + wait) otherwise. -/
theorem backoff_decision_spec (tier : TierConfig) (r : StoredRecord)
    (now : Nat) :
    BackoffPolicy.decide none tier now = Decision.allow ∧
    (r.count ≤ tier.freeRetries →
      BackoffPolicy.decide (some r) tier now = Decision.allow) ∧
    (tier.freeRetries < r.count →
      BackoffPolicy.decide (some r) tier now =
        (if r.lastRequest + waitFor tier (r.count - tier.freeRetries) ≤ now
         then Decision.allow
         else Decision.block
           (r.lastRequest + waitFor tier (r.count - tier.freeRetries)))) ∧
    (∀ overage : Nat, waitFor tier overage =
      min tier.maxWait (tier.minWait * 2 ^ (overage - 1))) ∧
    (∀ o₁ o₂ : Nat, o₁ ≤ o₂ → waitFor tier o₁ ≤ waitFor tier o₂) := by
  refine ⟨rfl, ?_, ?_, fun overage => rfl, ?_⟩
  · intro h
    simp [BackoffPolicy.decide, h]
  · intro h
    have hne : ¬ r.count ≤ tier.freeRetries := Nat.not_le.mpr h
    simp [BackoffPolicy.decide, hne]
  · intro o₁ o₂ h
    exact min_le_min (Nat.le_refl _)
      (Nat.mul_le_mul_left _
        (Nat.pow_le_pow_right (by norm_num) (Nat.sub_le_sub_right h 1)))

/-- Witness for C1: with the login tier, a record whose count 6 exceeds the
5 free retries and whose last failure was at time 0, a check at time 0 is
blocked until 300000 ms (5 minutes, the minimum wait). -/
theorem backoff_decision_spec_witness :
    5 < 6 ∧
    BackoffPolicy.decide
      (some { count := 6, firstRequest := 0, lastRequest := 0,
              expiresAt := 86400000 })
      loginBruteForce.config 0 = Decision.block 300000 := by
  constructor
  · decide
  · have h := (backoff_decision_spec loginBruteForce.config
      { count := 6, firstRequest := 0, lastRequest := 0,
        expiresAt := 86400000 } 0).2.2.1 (by decide)
    rw [h]
    decide

/-- C5: For every key and every N >= 1, N parallel recordFailure
invocations for that key leave the stored record with count == N: the
per-key increments are atomic and linearizable, so every linearization of
the N simultaneous increments yields count N with the window fields
intact — no concurrent increment overwrites another. -/
theorem parallel_failures_linearizable (n now lifetimeSeconds : Nat)
    (hn : 1 ≤ n) (hL : 0 < lifetimeSeconds) :
    runParallelFailures n now lifetimeSeconds =
      some { count := n, firstRequest := now, lastRequest := now,
             expiresAt := now + lifetimeSeconds * 1000 } := by
  induction n with
  | zero => omega
  | succ m ih =>
    rcases Nat.eq_zero_or_pos m with h0 | hm
    · subst h0
      simp [runParallelFailures, Store.incrementAndGet, Store.getRecord]
    · have hx : ¬ (now + lifetimeSeconds * 1000 ≤ now) := by omega
      simp [runParallelFailures, ih hm, Store.incrementAndGet,
        Store.getRecord, hx]

/-- Witness for C5: three simultaneous recordFailure calls at time 0 with
the one-hour lifetime leave a record with count 3. -/
theorem parallel_failures_linearizable_witness :
    1 ≤ 3 ∧ 0 < 3600 ∧
    runParallelFailures 3 0 3600 =
      some { count := 3, firstRequest := 0, lastRequest := 0,
             expiresAt := 3600000 } :=
  ⟨by decide, by decide,
    parallel_failures_linearizable 3 0 3600 (by decide) (by decide)⟩

/-- C4 counterexample: a record whose expiresAt (0) has already passed at
now = 1 is still physically present then, because the schema's TTL index
(`expires: '1d'`) only removes the document one day after the `expires`
timestamp — refuting the claim that the record is physically purged once
expiresAt passes. -/
theorem expired_record_purge_counterexample :
    (0 : Nat) ≤ 1 ∧
    Store.ttlPurge
      (some { count := 7, firstRequest := 0, lastRequest := 0,
              expiresAt := 0 }) 1 =
      some { count := 7, firstRequest := 0, lastRequest := 0,
             expiresAt := 0 } := by
  decide

/-- C4 as amended: for every key and tier, a record whose expiresAt is <=
now never influences a decision — the store lookup treats it as absent,
checking it decides exactly as on an absent record, and the next recorded
failure restarts the window with count 1 (the count restarts from 0) —
while the physical purge by the schema's TTL index happens exactly once
one day has passed after expiresAt, not at expiresAt itself. -/
theorem expired_record_behaves_absent (tier : TierConfig)
    (r : StoredRecord) (now : Nat) (h : r.expiresAt ≤ now) :
    Store.getRecord (some r) now = Store.getRecord none now ∧
    Guard.check StoreHealth.up (some r) tier now =
      Guard.check StoreHealth.up none tier now ∧
    Store.incrementAndGet (some r) now tier.lifetime =
      { count := 1, firstRequest := now, lastRequest := now,
        expiresAt := now + tier.lifetime * 1000 } ∧
    (∀ later : Nat, Store.ttlPurge (some r) later = none ↔
      r.expiresAt + ttlGraceMs ≤ later) := by
  have hg : Store.getRecord (some r) now = none := by
    simp [Store.getRecord, h]
  refine ⟨by simp [Store.getRecord, h], ?_, ?_, ?_⟩
  · simp [Guard.check, Store.getRecord, h]
  · simp [Store.incrementAndGet, hg]
  · intro later
    by_cases hc : r.expiresAt + ttlGraceMs ≤ later
    · simp [Store.ttlPurge, hc]
    · simp [Store.ttlPurge, hc]

/-- Witness for C4 (amended): a record expired exactly at now = 100 is
treated as absent by the store lookup. -/
theorem expired_record_behaves_absent_witness :
    (100 : Nat) ≤ 100 ∧
    Store.getRecord
      (some { count := 7, firstRequest := 0, lastRequest := 50,
              expiresAt := 100 }) 100 = none := by
  constructor
  · decide
  · exact (expired_record_behaves_absent loginBruteForce.config
      { count := 7, firstRequest := 0, lastRequest := 50, expiresAt := 100 }
      100 (by decide)).1

/-- C6 counterexample: on a blocked request at the global tier, the
response body contains neither a `blocked` field nor a
`retryAfterSeconds` field, refuting the claim that every tier's blocked
output carries blocked=true and a ceiling-rounded retryAfterSeconds. -/
theorem blocked_output_counterexample :
    (globalFailCallback 0 60000).blocked = none ∧
    (globalFailCallback 0 60000).retryAfterSeconds = none :=
  ⟨rfl, rfl⟩

/-- C6 as amended: on a blocked request every tier responds with a
structured JSON body whose success field is false (no tier emits a
blocked or retryAfterSeconds field); the login and registration tiers
embed a ceiling-rounded wait in minutes,
ceil((nextValidRequestDate - now) / 60000), in their human-readable
per-tier message, the login tier additionally echoes
nextValidRequestDate in the body, and the global and payment tiers
return only a fixed per-tier message with no retry time. -/
theorem blocked_output_amended (now nv : Int) :
    ((loginFailCallback now nv).success = false ∧
     (loginFailCallback now nv).blocked = none ∧
     (loginFailCallback now nv).retryAfterSeconds = none ∧
     (loginFailCallback now nv).nextValidRequestDate = some nv ∧
     (loginFailCallback now nv).message =
       "Too many failed login attempts. Please try again in "
         ++ toString (jsCeilDiv (nv - now) 60000) ++ " minute(s).") ∧
    ((registrationFailCallback now nv).success = false ∧
     (registrationFailCallback now nv).blocked = none ∧
     (registrationFailCallback now nv).retryAfterSeconds = none ∧
     (registrationFailCallback now nv).nextValidRequestDate = none ∧
     (registrationFailCallback now nv).message =
       "Too many registration attempts. Please try again in "
         ++ toString (jsCeilDiv (nv - now) 60000) ++ " minute(s).") ∧
    ((globalFailCallback now nv).success = false ∧
     (globalFailCallback now nv).blocked = none ∧
     (globalFailCallback now nv).retryAfterSeconds = none ∧
     (globalFailCallback now nv).message =
       "Too many requests from this IP. Please slow down.") ∧
    ((paymentFailCallback now nv).success = false ∧
     (paymentFailCallback now nv).blocked = none ∧
     (paymentFailCallback now nv).retryAfterSeconds = none ∧
     (paymentFailCallback now nv).message =
       "Payment creation rate limit exceeded. Please wait before creating another payment.") :=
  ⟨⟨rfl, rfl, rfl, rfl, rfl⟩, ⟨rfl, rfl, rfl, rfl, rfl⟩,
   ⟨rfl, rfl, rfl, rfl⟩, ⟨rfl, rfl, rfl, rfl⟩⟩

/-- A sequence of guard operations that are all checks leaves the stored
record unchanged. -/
theorem applyOps_id_of_checks (ops : List GuardOp) :
    ∀ db : Option StoredRecord,
      (∀ op ∈ ops, op.isCheck = true) → applyOps ops db = db := by
  induction ops with
  | nil => intro db _; rfl
  | cons op rest ih =>
    intro db h
    have hop := h op (List.mem_cons_self op rest)
    cases op with
    | checkOp t n =>
      calc applyOps (GuardOp.checkOp t n :: rest) db
          = applyOps rest db := rfl
        _ = db := ih db (fun o ho => h o (List.mem_cons_of_mem _ ho))
    | failOp t n => simp [GuardOp.isCheck] at hop

/-- C7: For every key and tier, the check operation never mutates state:
a single check returns the stored record unchanged while reporting the
guard's decision, and any sequence of repeated check calls leaves the
stored attempt record identical, so check is idempotent and safe as a
pre-flight query. -/
theorem check_never_mutates (db : Option StoredRecord) (tier : TierConfig)
    (now : Nat) (ops : List GuardOp)
    (h : ∀ op ∈ ops, op.isCheck = true) :
    (Guard.checkWithState db tier now).1 = db ∧
    (Guard.checkWithState db tier now).2 =
      Guard.check StoreHealth.up db tier now ∧
    applyOps ops db = db :=
  ⟨rfl, rfl, applyOps_id_of_checks ops db h⟩

/-- Witness for C7: two consecutive checks at the login tier leave a
concrete stored record untouched. -/
theorem check_never_mutates_witness :
    (∀ op ∈ [GuardOp.checkOp loginBruteForce.config 0,
             GuardOp.checkOp loginBruteForce.config 5],
      op.isCheck = true) ∧
    applyOps
      [GuardOp.checkOp loginBruteForce.config 0,
       GuardOp.checkOp loginBruteForce.config 5]
      (some { count := 9, firstRequest := 0, lastRequest := 0,
              expiresAt := 100 }) =
      some { count := 9, firstRequest := 0, lastRequest := 0,
             expiresAt := 100 } := by
  constructor
  · decide
  · exact (check_never_mutates
      (some { count := 9, firstRequest := 0, lastRequest := 0,
              expiresAt := 100 })
      loginBruteForce.config 0
      [GuardOp.checkOp loginBruteForce.config 0,
       GuardOp.checkOp loginBruteForce.config 5] (by decide)).2.2
